import Mathlib

/-!
# Verification of a UDP session protocol (client/server)

Shallow embedding of `src/A/Client.py` and `src/A/Server.py`:
the wire codec (`struct.pack('!HBBIIQQ', ...)`), the Lamport clock
(`update_clock`), the server's per-session handlers (`handle_hello`,
`handle_data`, `handle_goodbye`, `check_timeout`), the server dispatch
(`handle_packet`) and idle sweep, and the client's timeout watchdog and
receive loop.  Bytes are modelled as `List Nat` (each entry one octet),
wall-clock seconds as `ℚ`, wall-clock milliseconds as `Nat`.
-/

/-! ## Protocol constants (Client.py lines 9-14, Server.py lines 8-13) -/

def MAGIC : Nat := 0xC461
def VERSION : Nat := 1
def CMD_HELLO : Nat := 0
def CMD_DATA : Nat := 1
def CMD_ALIVE : Nat := 2
def CMD_GOODBYE : Nat := 3

/-! ## Wire codec

`struct.pack('!HBBIIQQ', ...)` lays out big-endian fields of widths
2, 1, 1, 4, 4, 8, 8 bytes (28-byte header), followed by the payload.
-/

/-- `w` big-endian bytes of `n` (the low `8*w` bits of `n`). -/
def beBytes : Nat → Nat → List Nat
  | 0, _ => []
  | w + 1, n => beBytes w (n / 256) ++ [n % 256]

/-- The value of a big-endian byte string. -/
def beVal (l : List Nat) : Nat := l.foldl (fun acc b => acc * 256 + b) 0

/-- The 28-byte header of `struct.pack('!HBBIIQQ', MAGIC, VERSION, command,
seq, session_id, clock, timestamp)` (Client.py lines 40-43, Server.py
lines 35-38). -/
def packHeader (command seq session_id clock timestamp : Nat) : List Nat :=
  beBytes 2 MAGIC ++ beBytes 1 VERSION ++ beBytes 1 command ++
    beBytes 4 seq ++ beBytes 4 session_id ++ beBytes 8 clock ++ beBytes 8 timestamp

/-- Read one big-endian field of `w` bytes, returning its value and the rest. -/
def readBE (w : Nat) (l : List Nat) : Nat × List Nat := (beVal (l.take w), l.drop w)

/-- `UDPServer.parse_message` (Server.py lines 106-116): reject short data,
unpack the 7 header fields, reject magic/version mismatch, return
`(command, seq_num, session_id, logical_clock, timestamp)` and the payload. -/
def server_parse (data : List Nat) :
    Option ((Nat × Nat × Nat × Nat × Nat) × List Nat) :=
  if data.length < 28 then none
  else
    let (magic, r1) := readBE 2 data
    let (version, r2) := readBE 1 r1
    let (command, r3) := readBE 1 r2
    let (seq_num, r4) := readBE 4 r3
    let (session_id, r5) := readBE 4 r4
    let (logical_clock, r6) := readBE 8 r5
    let (timestamp, r7) := readBE 8 r6
    if magic ≠ MAGIC ∨ version ≠ VERSION then none
    else some ((command, seq_num, session_id, logical_clock, timestamp), r7)

/-- `UDPClient.parse_message` (Client.py lines 53-63): like the server's
but additionally rejects a `session_id` different from the client's own,
and returns `(command, seq_num, logical_clock, timestamp)` and the payload. -/
def client_parse (self_session_id : Nat) (data : List Nat) :
    Option ((Nat × Nat × Nat × Nat) × List Nat) :=
  if data.length < 28 then none
  else
    let (magic, r1) := readBE 2 data
    let (version, r2) := readBE 1 r1
    let (command, r3) := readBE 1 r2
    let (seq_num, r4) := readBE 4 r3
    let (session_id, r5) := readBE 4 r4
    let (logical_clock, r6) := readBE 8 r5
    let (timestamp, r7) := readBE 8 r6
    if magic ≠ MAGIC ∨ version ≠ VERSION ∨ session_id ≠ self_session_id then none
    else some ((command, seq_num, logical_clock, timestamp), r7)

/-! ### Codec lemmas -/

theorem beBytes_length (w n : Nat) : (beBytes w n).length = w := by
  induction w generalizing n with
  | zero => rfl
  | succ k ih => simp [beBytes, ih]

theorem beVal_append_singleton (l : List Nat) (b : Nat) :
    beVal (l ++ [b]) = beVal l * 256 + b := by
  simp [beVal, List.foldl_append]

theorem beVal_beBytes (w n : Nat) : beVal (beBytes w n) = n % 256 ^ w := by
  induction w generalizing n with
  | zero => simp [beBytes, beVal, Nat.mod_one]
  | succ k ih =>
    rw [beBytes, beVal_append_singleton, ih]
    rw [pow_succ, mul_comm (256 ^ k) 256, Nat.mod_mul]
    ring

theorem beVal_beBytes_of_lt {w n : Nat} (h : n < 256 ^ w) :
    beVal (beBytes w n) = n := by
  rw [beVal_beBytes, Nat.mod_eq_of_lt h]

theorem readBE_append (w : Nat) (l1 l2 : List Nat) (h : l1.length = w) :
    readBE w (l1 ++ l2) = (beVal l1, l2) := by
  subst h
  simp [readBE, List.take_left, List.drop_left]

theorem packHeader_assoc (command seq session_id clock timestamp : Nat)
    (payload : List Nat) :
    packHeader command seq session_id clock timestamp ++ payload =
      beBytes 2 MAGIC ++ (beBytes 1 VERSION ++ (beBytes 1 command ++
        (beBytes 4 seq ++ (beBytes 4 session_id ++ (beBytes 8 clock ++
          (beBytes 8 timestamp ++ payload)))))) := by
  simp [packHeader, List.append_assoc]

theorem packHeader_length (command seq session_id clock timestamp : Nat) :
    (packHeader command seq session_id clock timestamp).length = 28 := by
  simp [packHeader, beBytes_length]

/-- C1. Wire-codec round trip: for all in-range header fields and any
payload, the server's `parse_message` applied to the bytes built by
`create_message`'s `struct.pack` succeeds and returns exactly the same
command, seq, session id, clock, timestamp and payload; the client's
`parse_message` (with the client's own session id) does too.  Success
itself certifies magic and version survive the trip, since both parsers
reject any mismatch with the constants that were packed. -/
theorem decode_encode_roundtrip (command seq session_id clock timestamp : Nat)
    (payload : List Nat) (hc : command < 2 ^ 8) (hs : seq < 2 ^ 32)
    (hi : session_id < 2 ^ 32) (hk : clock < 2 ^ 64) (ht : timestamp < 2 ^ 64) :
    server_parse (packHeader command seq session_id clock timestamp ++ payload) =
      some ((command, seq, session_id, clock, timestamp), payload) ∧
    client_parse session_id
        (packHeader command seq session_id clock timestamp ++ payload) =
      some ((command, seq, clock, timestamp), payload) := by
  have hlen : ¬ (packHeader command seq session_id clock timestamp ++ payload).length < 28 := by
    simp [List.length_append, packHeader_length]
  have hmagic : beVal (beBytes 2 MAGIC) = MAGIC := beVal_beBytes_of_lt (by decide)
  have hver : beVal (beBytes 1 VERSION) = VERSION := beVal_beBytes_of_lt (by decide)
  have hcmd : beVal (beBytes 1 command) = command := beVal_beBytes_of_lt (by simpa using hc)
  have hseq : beVal (beBytes 4 seq) = seq := beVal_beBytes_of_lt (by simpa using hs)
  have hsid : beVal (beBytes 4 session_id) = session_id := beVal_beBytes_of_lt (by simpa using hi)
  have hclk : beVal (beBytes 8 clock) = clock := beVal_beBytes_of_lt (by simpa using hk)
  have hts : beVal (beBytes 8 timestamp) = timestamp := beVal_beBytes_of_lt (by simpa using ht)
  constructor
  · rw [server_parse, if_neg hlen, packHeader_assoc]
    simp only [readBE_append 2 (beBytes 2 MAGIC) _ (beBytes_length 2 MAGIC),
      readBE_append 1 (beBytes 1 VERSION) _ (beBytes_length 1 VERSION),
      readBE_append 1 (beBytes 1 command) _ (beBytes_length 1 command),
      readBE_append 4 (beBytes 4 seq) _ (beBytes_length 4 seq),
      readBE_append 4 (beBytes 4 session_id) _ (beBytes_length 4 session_id),
      readBE_append 8 (beBytes 8 clock) _ (beBytes_length 8 clock),
      readBE_append 8 (beBytes 8 timestamp) _ (beBytes_length 8 timestamp)]
    simp [hmagic, hver, hcmd, hseq, hsid, hclk, hts]
  · rw [client_parse, if_neg hlen, packHeader_assoc]
    simp only [readBE_append 2 (beBytes 2 MAGIC) _ (beBytes_length 2 MAGIC),
      readBE_append 1 (beBytes 1 VERSION) _ (beBytes_length 1 VERSION),
      readBE_append 1 (beBytes 1 command) _ (beBytes_length 1 command),
      readBE_append 4 (beBytes 4 seq) _ (beBytes_length 4 seq),
      readBE_append 4 (beBytes 4 session_id) _ (beBytes_length 4 session_id),
      readBE_append 8 (beBytes 8 clock) _ (beBytes_length 8 clock),
      readBE_append 8 (beBytes 8 timestamp) _ (beBytes_length 8 timestamp)]
    simp [hmagic, hver, hcmd, hseq, hsid, hclk, hts]

/-- Concrete instance of the round-trip theorem. -/
theorem decode_encode_roundtrip_witness :
    server_parse (packHeader 1 7 5 9 11 ++ [104, 105]) =
      some ((1, 7, 5, 9, 11), [104, 105]) ∧
    client_parse 5 (packHeader 1 7 5 9 11 ++ [104, 105]) =
      some ((1, 7, 9, 11), [104, 105]) := by
  have h := decode_encode_roundtrip 1 7 5 9 11 [104, 105]
    (by decide) (by decide) (by decide) (by decide) (by decide)
  exact ⟨h.1, h.2⟩

/-! ## Logical clock

`update_clock` (Client.py lines 30-34, Server.py lines 25-29): if a
received clock is given, first merge with `max`; then increment; the new
value is returned. -/

def update_clock (clock : Nat) (received : Option Nat) : Nat :=
  (match received with
    | some c => max clock c
    | none => clock) + 1

/-- The clock after a sequence of `update_clock` calls. -/
def clock_run (clock : Nat) (rs : List (Option Nat)) : Nat :=
  rs.foldl update_clock clock

/-- C2. The Lamport clock rule: every call returns
`max(current, received-if-any) + 1`, so each call strictly increases the
clock by at least 1, the clock is non-decreasing across any sequence of
calls, and a call whose received clock `c` exceeds the current clock
returns exactly `c + 1`. -/
theorem update_clock_spec (clock : Nat) :
    (∀ r : Option Nat, update_clock clock r = max clock (r.getD clock) + 1) ∧
    (∀ r : Option Nat, clock + 1 ≤ update_clock clock r) ∧
    (∀ rs : List (Option Nat), clock ≤ clock_run clock rs) ∧
    (∀ c : Nat, clock < c → update_clock clock (some c) = c + 1) := by
  refine ⟨?_, ?_, ?_, ?_⟩
  · rintro (_ | c) <;> simp [update_clock]
  · rintro (_ | c) <;> simp [update_clock]
  · intro rs
    induction rs generalizing clock with
    | nil => exact le_refl _
    | cons r rest ih =>
      refine le_trans ?_ (ih (update_clock clock r))
      rcases r with _ | c <;> simp [update_clock]
      omega
  · intro c hc
    simp [update_clock, Nat.max_eq_right (le_of_lt hc)]

/-- Concrete instance of the clock law: current clock 3, received clock 7. -/
theorem update_clock_spec_witness :
    update_clock 3 (some 7) = max 3 7 + 1 ∧
    3 + 1 ≤ update_clock 3 (some 7) ∧
    3 ≤ clock_run 3 [some 7, none] ∧
    update_clock 3 (some 7) = 7 + 1 := by
  obtain ⟨h1, h2, h3, h4⟩ := update_clock_spec 3
  exact ⟨h1 (some 7), h2 (some 7), h3 [some 7, none], h4 7 (by decide)⟩

/-! ## Server session record (Server.py lines 15-23)

`Session.__init__`: `expected_seq = 0`, `last_activity = time.time()`,
`active = True`, `logical_clock = 0`.  `addr`/`sock` are transport
capabilities and carry no protocol state beyond the id. -/

structure Session where
  session_id : Nat
  expected_seq : Nat
  last_activity : ℚ
  active : Bool
  logical_clock : Nat
deriving DecidableEq, Repr

/-- A datagram sent by an endpoint, as built by `create_message`:
command, seq field, session id, clock value at send, timestamp (ms). -/
structure SentMsg where
  command : Nat
  seq : Nat
  session_id : Nat
  clock : Nat
  timestamp : Nat
deriving DecidableEq, Repr

/-- `Session.create_message` (Server.py lines 31-39): tick the clock with
no received value, stamp the wall clock, pack the header.  Returns the
session with the advanced clock and the message sent. -/
def Session.create_message (s : Session) (command seq_num nowMs : Nat) :
    Session × SentMsg :=
  let clock := update_clock s.logical_clock none
  ({ s with logical_clock := clock },
   ⟨command, seq_num, s.session_id, clock, nowMs⟩)

/-- The `while self.expected_seq < seq_num` loop of `Session.handle_data`
(Server.py lines 65-67): returns the final `expected_seq` and the list of
sequence numbers reported lost, in report order. -/
def gapLoop (e seq : Nat) : Nat × List Nat :=
  if e < seq then
    let p := gapLoop (e + 1) seq
    (p.1, e :: p.2)
  else (e, [])
termination_by seq - e

/-- `Session.handle_data` (Server.py lines 57-77).  `seq`/`clock` are the
message's seq and clock fields, `now` the wall clock in seconds, `nowMs`
in milliseconds.  Returns the new session, the lost-packet reports, and
the reply (none for a duplicate). -/
def Session.handle_data (s : Session) (seq clock : Nat) (now : ℚ) (nowMs : Nat) :
    Session × List Nat × Option SentMsg :=
  if seq < s.expected_seq then (s, [], none)
  else
    let p := gapLoop s.expected_seq seq
    let s1 := { s with expected_seq := p.1 }
    let s2 := { s1 with logical_clock := update_clock s1.logical_clock (some clock) }
    let r := s2.create_message CMD_ALIVE s2.expected_seq nowMs
    let s3 := { r.1 with expected_seq := r.1.expected_seq + 1, last_activity := now }
    (s3, p.2, some r.2)

/-! ### Gap-loop lemma -/

theorem gapLoop_eq (e seq : Nat) :
    gapLoop e seq = (max e seq, List.range' e (seq - e)) := by
  by_cases h : e < seq
  · have hk : ∃ k, seq - e = k + 1 := ⟨seq - e - 1, by omega⟩
    obtain ⟨k, hk⟩ := hk
    induction k generalizing e with
    | zero =>
      rw [gapLoop, if_pos h, gapLoop, if_neg (by omega)]
      have he : e + 1 = seq := by omega
      simp [he, hk, Nat.max_eq_right (le_of_lt h)]
    | succ m ih =>
      rw [gapLoop, if_pos h]
      rw [ih (e + 1) (by omega) (by omega)]
      have h1 : seq - e = m + 2 := hk
      have h2 : seq - (e + 1) = m + 1 := by omega
      simp [Nat.max_eq_right (le_of_lt h), Nat.max_eq_right (by omega : e + 1 ≤ seq),
        h1, h2, List.range']
  · rw [gapLoop, if_neg h]
    have : seq - e = 0 := by omega
    simp [this, Nat.max_eq_left (by omega : seq ≤ e)]

/-- C3. Gap handling: a DATA message with `seq = expected_seq + k`
(`k ≥ 1`) produces exactly the lost-packet reports
`expected_seq, expected_seq+1, …, expected_seq+k-1` — `k` of them, one
for each value in `[expected_seq, seq)` — and afterwards the session's
`expected_seq` equals `seq + 1`. -/
theorem handle_data_gap (s : Session) (k clock : Nat) (now : ℚ) (nowMs : Nat)
    (hk : 1 ≤ k) :
    (s.handle_data (s.expected_seq + k) clock now nowMs).2.1 =
        List.range' s.expected_seq k ∧
    (s.handle_data (s.expected_seq + k) clock now nowMs).2.1.length = k ∧
    (∀ m : Nat, m ∈ (s.handle_data (s.expected_seq + k) clock now nowMs).2.1 ↔
        s.expected_seq ≤ m ∧ m < s.expected_seq + k) ∧
    (s.handle_data (s.expected_seq + k) clock now nowMs).1.expected_seq =
        (s.expected_seq + k) + 1 := by
  have hnotlt : ¬ s.expected_seq + k < s.expected_seq := by omega
  have hgap := gapLoop_eq s.expected_seq (s.expected_seq + k)
  have hmax : max s.expected_seq (s.expected_seq + k) = s.expected_seq + k := by omega
  have hsub : s.expected_seq + k - s.expected_seq = k := by omega
  rw [hmax, hsub] at hgap
  have h1 : (s.handle_data (s.expected_seq + k) clock now nowMs).2.1 =
      List.range' s.expected_seq k := by
    simp [Session.handle_data, if_neg hnotlt, hgap]
  refine ⟨h1, ?_, ?_, ?_⟩
  · rw [h1]; simp
  · intro m
    rw [h1, List.mem_range'_1]
  · simp [Session.handle_data, if_neg hnotlt, hgap, Session.create_message]

/-- Concrete instance of the gap law: `expected_seq = 2`, DATA with
`seq = 5` (`k = 3`): reports 2, 3, 4 and `expected_seq` ends at 6. -/
theorem handle_data_gap_witness :
    ((⟨5, 2, 0, true, 0⟩ : Session).handle_data (2 + 3) 9 0 0).2.1 =
        List.range' 2 3 ∧
    ((⟨5, 2, 0, true, 0⟩ : Session).handle_data (2 + 3) 9 0 0).2.1.length = 3 ∧
    (∀ m : Nat, m ∈ ((⟨5, 2, 0, true, 0⟩ : Session).handle_data (2 + 3) 9 0 0).2.1 ↔
        2 ≤ m ∧ m < 2 + 3) ∧
    ((⟨5, 2, 0, true, 0⟩ : Session).handle_data (2 + 3) 9 0 0).1.expected_seq =
        (2 + 3) + 1 :=
  handle_data_gap ⟨5, 2, 0, true, 0⟩ 3 9 0 0 (by decide)

/-- C4. Duplicate handling: a DATA message with `seq < expected_seq`
changes nothing at all — the session record (expected_seq, logical_clock,
last_activity, active) is returned unchanged, no lost-packet report is
made, and no reply is sent. -/
theorem handle_data_duplicate (s : Session) (seq clock : Nat) (now : ℚ)
    (nowMs : Nat) (h : seq < s.expected_seq) :
    s.handle_data seq clock now nowMs = (s, [], none) := by
  simp [Session.handle_data, if_pos h]

/-- Concrete instance of the duplicate law: `expected_seq = 4`, DATA with
`seq = 1` leaves the session untouched and sends nothing. -/
theorem handle_data_duplicate_witness :
    (⟨5, 4, 0, true, 7⟩ : Session).handle_data 1 9 3 12 =
      (⟨5, 4, 0, true, 7⟩, [], none) :=
  handle_data_duplicate ⟨5, 4, 0, true, 7⟩ 1 9 3 12 (by decide)

/-- C5 (corrected). Accepted-DATA reply: whenever the server accepts a
DATA message with `seq ≥ expected_seq`, the reply is an ALIVE carrying
sequence number `seq` — the gap-filled `expected_seq` as it stands when
`send_message` runs, *before* the subsequent increment — not `seq + 1`:
`send_message(CMD_ALIVE, self.expected_seq)` precedes
`self.expected_seq += 1` in `handle_data`. -/
theorem handle_data_reply_seq (s : Session) (seq clock : Nat) (now : ℚ)
    (nowMs : Nat) (h : s.expected_seq ≤ seq) :
    ((s.handle_data seq clock now nowMs).2.2).map SentMsg.command =
        some CMD_ALIVE ∧
    ((s.handle_data seq clock now nowMs).2.2).map SentMsg.seq = some seq := by
  have hnotlt : ¬ seq < s.expected_seq := not_lt.mpr h
  have hgap := gapLoop_eq s.expected_seq seq
  rw [Nat.max_eq_right h] at hgap
  constructor <;>
    simp [Session.handle_data, if_neg hnotlt, hgap, Session.create_message]

/-- Concrete instance of the accepted-DATA reply law: `expected_seq = 2`,
DATA with `seq = 5` is answered by ALIVE with seq field 5. -/
theorem handle_data_reply_seq_witness :
    (((⟨9, 2, 0, true, 0⟩ : Session).handle_data 5 0 0 0).2.2).map
        SentMsg.command = some CMD_ALIVE ∧
    (((⟨9, 2, 0, true, 0⟩ : Session).handle_data 5 0 0 0).2.2).map
        SentMsg.seq = some 5 :=
  handle_data_reply_seq ⟨9, 2, 0, true, 0⟩ 5 0 0 0 (by decide)

/-- C5 counterexample. At the claim's own instance — `expected_seq = 1`,
DATA with `seq = 1` accepted — the reply's sequence field is 1, not the
claimed `seq + 1 = 2`. -/
theorem handle_data_reply_seq_cex :
    (((⟨7, 1, 0, true, 0⟩ : Session).handle_data 1 0 0 0).2.2).map
        SentMsg.seq = some 1 ∧ (1 : Nat) ≠ 2 := by
  constructor
  · have hgap := gapLoop_eq 1 1
    simp at hgap
    simp [Session.handle_data, hgap, Session.create_message]
  · decide

/-! ## Remaining session handlers (Server.py lines 45-96) -/

/-- `Session.handle_hello` (Server.py lines 45-55): if `expected_seq ≠ 0`
it is a protocol violation — send GOODBYE (seq field `expected_seq`),
mark inactive, return without touching `expected_seq`; otherwise merge
the HELLO's clock, reply HELLO (seq field `expected_seq`, i.e. 0) and
advance `expected_seq` to 1. -/
def Session.handle_hello (s : Session) (clock nowMs : Nat) :
    Session × Option SentMsg :=
  if s.expected_seq ≠ 0 then
    let r := s.create_message CMD_GOODBYE s.expected_seq nowMs
    ({ r.1 with active := false }, some r.2)
  else
    let s1 := { s with logical_clock := update_clock s.logical_clock (some clock) }
    let r := s1.create_message CMD_HELLO s1.expected_seq nowMs
    ({ r.1 with expected_seq := r.1.expected_seq + 1 }, some r.2)

/-- `Session.handle_goodbye` (Server.py lines 83-88): merge the clock,
reply GOODBYE (seq field `expected_seq`), mark inactive. -/
def Session.handle_goodbye (s : Session) (clock nowMs : Nat) :
    Session × Option SentMsg :=
  let s1 := { s with logical_clock := update_clock s.logical_clock (some clock) }
  let r := s1.create_message CMD_GOODBYE s1.expected_seq nowMs
  ({ r.1 with active := false }, some r.2)

/-- `Session.check_timeout` (Server.py lines 90-96): if more than 10
seconds have passed since `last_activity` and the session is active, send
GOODBYE, mark inactive, and report `true` (caller then deletes the
session); otherwise report `false` with nothing sent. -/
def Session.check_timeout (s : Session) (now : ℚ) (nowMs : Nat) :
    Session × List SentMsg × Bool :=
  if now - s.last_activity > 10 ∧ s.active then
    let r := s.create_message CMD_GOODBYE s.expected_seq nowMs
    ({ r.1 with active := false }, [r.2], true)
  else (s, [], false)

/-! ## Server dispatch (Server.py lines 98-151)

`self.sessions` is a Python dict keyed by session id: modelled as an
association list with unique keys, insertion at the back (dicts preserve
insertion order and a new key is appended). -/

/-- `session_id in self.sessions` / `self.sessions[session_id]`: first
(and, keys being unique, only) entry under the key. -/
def lookupTable (t : List (Nat × Session)) (sid : Nat) : Option Session :=
  match t with
  | [] => none
  | p :: rest => if p.1 = sid then some p.2 else lookupTable rest sid

/-- Replace the value stored under `sid` (the handlers mutate the very
object the table holds). -/
def updateTable (t : List (Nat × Session)) (sid : Nat) (s : Session) :
    List (Nat × Session) :=
  t.map fun p => if p.1 = sid then (sid, s) else p

/-- `del self.sessions[sid]`. -/
def eraseTable (t : List (Nat × Session)) (sid : Nat) : List (Nat × Session) :=
  t.filter fun p => p.1 ≠ sid

/-- `UDPServer.handle_packet` (Server.py lines 118-140): parse; on failure
drop.  Unknown id: drop unless HELLO, else create a fresh record
(`expected_seq = 0`, `last_activity = now`, active, clock 0).  Dispatch
HELLO/DATA/GOODBYE to the session's handler (ALIVE and any other command
fall through with no effect); after `handle_goodbye` the record is
deleted — the only command whose branch deletes it.  Returns the new
table, the replies sent, and the lost-seq reports. -/
def handle_packet (t : List (Nat × Session)) (data : List Nat) (now : ℚ)
    (nowMs : Nat) : List (Nat × Session) × List SentMsg × List Nat :=
  match server_parse data with
  | none => (t, [], [])
  | some ((command, seq_num, session_id, logical_clock, _), _) =>
    match lookupTable t session_id with
    | none =>
      if command ≠ CMD_HELLO then (t, [], [])
      else
        let s0 : Session := ⟨session_id, 0, now, true, 0⟩
        let r := s0.handle_hello logical_clock nowMs
        (t ++ [(session_id, r.1)], r.2.toList, [])
    | some s =>
      if command = CMD_HELLO then
        let r := s.handle_hello logical_clock nowMs
        (updateTable t session_id r.1, r.2.toList, [])
      else if command = CMD_DATA then
        let r := s.handle_data seq_num logical_clock now nowMs
        (updateTable t session_id r.1, r.2.2.toList, r.2.1)
      else if command = CMD_GOODBYE then
        let r := s.handle_goodbye logical_clock nowMs
        (eraseTable (updateTable t session_id r.1) session_id, r.2.toList, [])
      else (t, [], [])

/-- The idle sweep at the top of `UDPServer.run`'s loop (Server.py lines
146-151): over a snapshot of the keys, run `check_timeout` on each
session and delete those that report `true`. -/
def sweep (t : List (Nat × Session)) (now : ℚ) (nowMs : Nat) :
    List (Nat × Session) × List SentMsg :=
  match t with
  | [] => ([], [])
  | (sid, s) :: rest =>
    let r := s.check_timeout now nowMs
    let q := sweep rest now nowMs
    if r.2.2 then (q.1, r.2.1 ++ q.2)
    else ((sid, r.1) :: q.1, r.2.1 ++ q.2)

/-- C8. Unknown session, non-HELLO command: the packet is silently
dropped — no reply, no lost-seq report, and the session table is returned
exactly as it was (no session created). -/
theorem unknown_session_drop (t : List (Nat × Session)) (data : List Nat)
    (now : ℚ) (nowMs : Nat) (command seq_num session_id logical_clock ts : Nat)
    (payload : List Nat)
    (hparse : server_parse data =
      some ((command, seq_num, session_id, logical_clock, ts), payload))
    (hunknown : lookupTable t session_id = none)
    (hcmd : command ≠ CMD_HELLO) :
    handle_packet t data now nowMs = (t, [], []) := by
  rw [handle_packet, hparse]
  simp [hunknown, hcmd]

/-- Concrete instance of the drop law: empty table, DATA for session 7. -/
theorem unknown_session_drop_witness :
    handle_packet [] (packHeader CMD_DATA 0 7 0 0) 3 12 = ([], [], []) :=
  unknown_session_drop [] (packHeader CMD_DATA 0 7 0 0) 3 12
    CMD_DATA 0 7 0 0 [] (by decide) rfl (by decide)

/-! ### Session-table lemmas -/

theorem lookup_eraseTable (t : List (Nat × Session)) (sid : Nat) :
    lookupTable (eraseTable t sid) sid = none := by
  induction t with
  | nil => rfl
  | cons p rest ih =>
    by_cases h : p.1 = sid
    · simpa [eraseTable, h] using ih
    · simpa [eraseTable, lookupTable, h] using ih

theorem lookup_updateTable (t : List (Nat × Session)) (sid : Nat) (s s' : Session)
    (h : lookupTable t sid = some s) :
    lookupTable (updateTable t sid s') sid = some s' := by
  induction t with
  | nil => simp [lookupTable] at h
  | cons p rest ih =>
    by_cases hp : p.1 = sid
    · simp [updateTable, hp, lookupTable]
    · rw [lookupTable, if_neg hp] at h
      simpa [updateTable, hp, lookupTable] using ih h

theorem sweep_lookup_of_not_mem (t : List (Nat × Session)) (now : ℚ)
    (nowMs : Nat) (sid : Nat) (h : sid ∉ t.map Prod.fst) :
    lookupTable (sweep t now nowMs).1 sid = none := by
  induction t with
  | nil => rfl
  | cons p rest ih =>
    simp only [List.map_cons, List.mem_cons] at h
    push_neg at h
    obtain ⟨p1, p2⟩ := p
    rw [sweep]
    by_cases hto : (p2.check_timeout now nowMs).2.2
    · simp only [hto, if_true]
      exact ih h.2
    · simp only [hto, if_false, lookupTable]
      rw [if_neg (Ne.symm h.1)]
      exact ih h.2

theorem sweep_msg_id_mem (t : List (Nat × Session)) (now : ℚ) (nowMs : Nat)
    (hids : ∀ p ∈ t, (p.2 : Session).session_id = p.1) :
    ∀ m ∈ (sweep t now nowMs).2, m.session_id ∈ t.map Prod.fst := by
  induction t with
  | nil => intro m hm; simp [sweep] at hm
  | cons p rest ih =>
    intro m hm
    obtain ⟨p1, p2⟩ := p
    have hrest := ih fun q hq => hids q (List.mem_cons_of_mem _ hq)
    have hhead : ∀ m' ∈ (p2.check_timeout now nowMs).2.1, m'.session_id = p1 := by
      intro m' hm'
      rw [Session.check_timeout] at hm'
      split at hm'
      · simp [Session.create_message] at hm'
        rw [hm']
        exact hids (p1, p2) (by simp)
      · simp at hm'
    rw [sweep] at hm
    by_cases hto : (p2.check_timeout now nowMs).2.2
    · simp only [hto, if_true, List.append_eq, List.mem_append] at hm
      rcases hm with hm | hm
      · simp [hhead m hm]
      · exact List.mem_cons_of_mem _ (hrest m hm)
    · have hto' : (p2.check_timeout now nowMs).2.2 = false := by simpa using hto
      simp only [hto', Bool.false_eq_true, if_false, List.append_eq,
        List.mem_append] at hm
      rcases hm with hm | hm
      · simp [hhead m hm]
      · exact List.mem_cons_of_mem _ (hrest m hm)

theorem filter_sid_nil (l : List SentMsg) (sid : Nat)
    (h : ∀ m ∈ l, m.session_id ≠ sid) :
    l.filter (fun m => decide (m.session_id = sid ∧ m.command = CMD_GOODBYE)) =
      [] := by
  induction l with
  | nil => rfl
  | cons m rest ih =>
    have hm := h m (by simp)
    have hrest := ih fun m' hm' => h m' (List.mem_cons_of_mem _ hm')
    rw [List.filter_cons, if_neg (by simp [hm])]
    exact hrest

theorem check_timeout_msg_id (s : Session) (now : ℚ) (nowMs : Nat) :
    ∀ m ∈ (s.check_timeout now nowMs).2.1, m.session_id = s.session_id := by
  intro m hm
  rw [Session.check_timeout] at hm
  split at hm
  · simp [Session.create_message] at hm
    rw [hm]
  · simp at hm

theorem sweep_removes_core (t : List (Nat × Session)) (now : ℚ) (nowMs : Nat)
    (sid : Nat) (s : Session)
    (hmem : (sid, s) ∈ t) (hnodup : (t.map Prod.fst).Nodup)
    (hids : ∀ p ∈ t, (p.2 : Session).session_id = p.1)
    (hact : s.active = true) (hidle : now - s.last_activity > 10) :
    lookupTable (sweep t now nowMs).1 sid = none ∧
    ((sweep t now nowMs).2.filter
      (fun m => decide (m.session_id = sid ∧ m.command = CMD_GOODBYE))).length =
      1 := by
  induction t with
  | nil => simp at hmem
  | cons p rest ih =>
    obtain ⟨p1, p2⟩ := p
    simp only [List.map_cons, List.nodup_cons] at hnodup
    have hids' : ∀ q ∈ rest, (q.2 : Session).session_id = q.1 :=
      fun q hq => hids q (List.mem_cons_of_mem _ hq)
    rcases List.mem_cons.mp hmem with heq | hmem'
    · have hp1 : p1 = sid := (Prod.mk.injEq _ _ _ _ |>.mp heq.symm).1
      have hp2 : p2 = s := (Prod.mk.injEq _ _ _ _ |>.mp heq.symm).2
      subst hp1; subst hp2
      have hcto : (p2.check_timeout now nowMs).2.2 = true := by
        rw [Session.check_timeout, if_pos ⟨hidle, hact⟩]
      have hsid : p2.session_id = p1 := hids (p1, p2) (by simp)
      rw [sweep]
      simp only [hcto, if_true]
      constructor
      · exact sweep_lookup_of_not_mem rest now nowMs p1 hnodup.1
      · have hrest0 : (sweep rest now nowMs).2.filter
            (fun m => decide (m.session_id = p1 ∧ m.command = CMD_GOODBYE)) =
            [] := by
          refine filter_sid_nil _ _ fun m hm => ?_
          have := sweep_msg_id_mem rest now nowMs hids' m hm
          intro hcontra
          rw [hcontra] at this
          exact hnodup.1 this
        have hmsg : (p2.check_timeout now nowMs).2.1 =
            [⟨CMD_GOODBYE, p2.expected_seq, p2.session_id,
              update_clock p2.logical_clock none, nowMs⟩] := by
          rw [Session.check_timeout, if_pos ⟨hidle, hact⟩]
          simp [Session.create_message]
        rw [List.filter_append, hrest0, hmsg]
        simp [hsid]
    · have hne : p1 ≠ sid := by
        intro h
        subst h
        exact hnodup.1 (List.mem_map_of_mem Prod.fst hmem')
      have ihres := ih hmem' hnodup.2 hids'
      have hhead0 : (p2.check_timeout now nowMs).2.1.filter
          (fun m => decide (m.session_id = sid ∧ m.command = CMD_GOODBYE)) =
          [] := by
        refine filter_sid_nil _ _ fun m hm => ?_
        rw [check_timeout_msg_id p2 now nowMs m hm, hids (p1, p2) (by simp)]
        exact hne
      rw [sweep]
      by_cases hto : (p2.check_timeout now nowMs).2.2
      · simp only [hto, if_true]
        refine ⟨ihres.1, ?_⟩
        rw [List.filter_append, hhead0, List.nil_append]
        exact ihres.2
      · have hto' : (p2.check_timeout now nowMs).2.2 = false := by simpa using hto
        simp only [hto', Bool.false_eq_true, if_false]
        refine ⟨?_, ?_⟩
        · rw [lookupTable, if_neg hne]
          exact ihres.1
        · rw [List.filter_append, hhead0, List.nil_append]
          exact ihres.2

/-- C9. Idle sweep: an active session more than 10 seconds past its
`last_activity` is, on the next sweep pass, timed out by `check_timeout`
(which sends it exactly one unsolicited GOODBYE and marks it inactive)
and its record is deleted from the table; across the whole sweep output
exactly one GOODBYE addressed to its id is sent.  Hypotheses: the table
has unique keys and each record's `session_id` equals its key — both are
invariants of `UDPServer`'s dict keyed by session id. -/
theorem idle_sweep_reclaims (t : List (Nat × Session)) (now : ℚ) (nowMs : Nat)
    (sid : Nat) (s : Session)
    (hmem : (sid, s) ∈ t) (hnodup : (t.map Prod.fst).Nodup)
    (hids : ∀ p ∈ t, (p.2 : Session).session_id = p.1)
    (hact : s.active = true) (hidle : now - s.last_activity > 10) :
    (s.check_timeout now nowMs).2.2 = true ∧
    (s.check_timeout now nowMs).1.active = false ∧
    (s.check_timeout now nowMs).2.1 =
      [⟨CMD_GOODBYE, s.expected_seq, s.session_id,
        update_clock s.logical_clock none, nowMs⟩] ∧
    lookupTable (sweep t now nowMs).1 sid = none ∧
    ((sweep t now nowMs).2.filter
      (fun m => decide (m.session_id = sid ∧ m.command = CMD_GOODBYE))).length =
      1 := by
  have hcore := sweep_removes_core t now nowMs sid s hmem hnodup hids hact hidle
  refine ⟨?_, ?_, ?_, hcore.1, hcore.2⟩
  · rw [Session.check_timeout, if_pos ⟨hidle, hact⟩]
  · rw [Session.check_timeout, if_pos ⟨hidle, hact⟩]
  · rw [Session.check_timeout, if_pos ⟨hidle, hact⟩]
    simp [Session.create_message]

/-- Concrete instance of the idle-sweep law: one session, idle 11 s. -/
theorem idle_sweep_reclaims_witness :
    ((⟨5, 3, 0, true, 0⟩ : Session).check_timeout 11 2).2.2 = true ∧
    ((⟨5, 3, 0, true, 0⟩ : Session).check_timeout 11 2).1.active = false ∧
    ((⟨5, 3, 0, true, 0⟩ : Session).check_timeout 11 2).2.1 =
      [⟨CMD_GOODBYE, 3, 5, update_clock 0 none, 2⟩] ∧
    lookupTable (sweep [(5, ⟨5, 3, 0, true, 0⟩)] 11 2).1 5 = none ∧
    ((sweep [(5, ⟨5, 3, 0, true, 0⟩)] 11 2).2.filter
      (fun m => decide (m.session_id = 5 ∧ m.command = CMD_GOODBYE))).length =
      1 :=
  idle_sweep_reclaims [(5, ⟨5, 3, 0, true, 0⟩)] 11 2 5 ⟨5, 3, 0, true, 0⟩
    (by simp) (by simp) (by simp) rfl (by norm_num)

/-- C6 counterexample. Protocol violation does *not* remove the session:
start with an empty table, accept HELLO for session 5 (record created,
`expected_seq` becomes 1), then deliver a second HELLO for session 5 — a
protocol violation.  Afterwards the record for id 5 is still in the
table, and a further message with the same id (a third HELLO) is still
dispatched against that old record, drawing a reply.  `handle_packet`
deletes a record only in its GOODBYE branch (Server.py line 140);
`handle_hello` merely sets `active = False` (line 49). -/
theorem violation_keeps_session_cex :
    (lookupTable
      (handle_packet (handle_packet [] (packHeader CMD_HELLO 0 5 0 0) 0 0).1
        (packHeader CMD_HELLO 0 5 0 0) 0 0).1 5).isSome = true ∧
    (handle_packet
      (handle_packet (handle_packet [] (packHeader CMD_HELLO 0 5 0 0) 0 0).1
        (packHeader CMD_HELLO 0 5 0 0) 0 0).1
      (packHeader CMD_HELLO 0 5 0 0) 0 0).2.1 ≠ [] := by
  constructor
  · decide
  · decide

/-- C6 (corrected). Session teardown: after an explicit GOODBYE the
record is deleted from the table; after an idle-timeout sweep it is
deleted; but after a protocol violation (HELLO for a session with
`expected_seq ≠ 0`) the record is only marked inactive and *stays in the
table*, where later messages with the same id are still dispatched to
it. -/
theorem session_teardown (t : List (Nat × Session)) (data : List Nat)
    (now : ℚ) (nowMs : Nat) (command seq_num sid clk ts : Nat)
    (payload : List Nat) (s : Session)
    (hparse : server_parse data =
      some ((command, seq_num, sid, clk, ts), payload))
    (hlook : lookupTable t sid = some s) :
    (command = CMD_GOODBYE →
      lookupTable (handle_packet t data now nowMs).1 sid = none) ∧
    (command = CMD_HELLO → s.expected_seq ≠ 0 →
      ∃ s', lookupTable (handle_packet t data now nowMs).1 sid = some s' ∧
        s'.active = false) ∧
    ((sid, s) ∈ t → (t.map Prod.fst).Nodup →
      (∀ p ∈ t, (p.2 : Session).session_id = p.1) →
      s.active = true → now - s.last_activity > 10 →
      lookupTable (sweep t now nowMs).1 sid = none) := by
  refine ⟨?_, ?_, ?_⟩
  · intro hcmd
    subst hcmd
    rw [handle_packet, hparse]
    simp only [hlook]
    simp only [if_true]
    exact lookup_eraseTable _ sid
  · intro hcmd hseq
    subst hcmd
    rw [handle_packet, hparse]
    simp only [hlook, if_true]
    refine ⟨((s.handle_hello clk nowMs).1), ?_, ?_⟩
    · exact lookup_updateTable t sid s _ hlook
    · rw [Session.handle_hello, if_pos hseq]
  · intro hmem hnodup hids hact hidle
    exact (sweep_removes_core t now nowMs sid s hmem hnodup hids hact hidle).1

/-- Concrete instance of the teardown law: table holding session 5 with
`expected_seq = 1`, a GOODBYE datagram for it. -/
theorem session_teardown_witness :
    ((CMD_GOODBYE : Nat) = CMD_GOODBYE →
      lookupTable (handle_packet [(5, ⟨5, 1, 0, true, 2⟩)]
        (packHeader CMD_GOODBYE 1 5 0 0) 20 0).1 5 = none) ∧
    ((CMD_GOODBYE : Nat) = CMD_HELLO →
      (⟨5, 1, 0, true, 2⟩ : Session).expected_seq ≠ 0 →
      ∃ s', lookupTable (handle_packet [(5, ⟨5, 1, 0, true, 2⟩)]
        (packHeader CMD_GOODBYE 1 5 0 0) 20 0).1 5 = some s' ∧
        s'.active = false) ∧
    ((5, (⟨5, 1, 0, true, 2⟩ : Session)) ∈ [(5, (⟨5, 1, 0, true, 2⟩ : Session))] →
      (([(5, (⟨5, 1, 0, true, 2⟩ : Session))].map Prod.fst)).Nodup →
      (∀ p ∈ [(5, (⟨5, 1, 0, true, 2⟩ : Session))],
        (p.2 : Session).session_id = p.1) →
      (⟨5, 1, 0, true, 2⟩ : Session).active = true →
      (20 : ℚ) - (⟨5, 1, 0, true, 2⟩ : Session).last_activity > 10 →
      lookupTable (sweep [(5, (⟨5, 1, 0, true, 2⟩ : Session))] 20 0).1 5 =
        none) :=
  session_teardown [(5, ⟨5, 1, 0, true, 2⟩)] (packHeader CMD_GOODBYE 1 5 0 0)
    20 0 CMD_GOODBYE 1 5 0 0 [] ⟨5, 1, 0, true, 2⟩ (by decide) rfl

/-! ## Client engine (Client.py lines 16-141)

`UDPClient.__init__`: `seq_num = 0`, `logical_clock = 0`,
`state = "INIT"`, `running = True`, `timeout = 5.0`,
`last_sent_time = 0`, `pending_ack = False`.  `running = False` is the
client's terminal condition — the spec's `TERMINATED` state — since every
loop (input, listener, watchdog) runs `while self.running`. -/

structure ClientState where
  session_id : Nat
  seq_num : Nat
  logical_clock : Nat
  state : String
  running : Bool
  timeout : ℚ
  last_sent_time : ℚ
  pending_ack : Bool
deriving DecidableEq, Repr

/-- `UDPClient.send_message` (Client.py lines 46-51): build the packet
via `create_message` (which ticks the clock), record the send time, set
`pending_ack`. -/
def ClientState.send_message (c : ClientState) (command : Nat)
    (data : List Nat) (now : ℚ) (nowMs : Nat) : ClientState × List Nat :=
  let clock := update_clock c.logical_clock none
  let msg := packHeader command c.seq_num c.session_id clock nowMs ++ data
  ({ c with
      logical_clock := clock, last_sent_time := now,
      pending_ack := true }, msg)

/-- One wake-up of the watchdog `UDPClient.check_timeout` (Client.py
lines 97-102): if `pending_ack` is set and more than `timeout` seconds
have passed since the last send, clear `running` (abort). -/
def ClientState.check_timeout (c : ClientState) (now : ℚ) : ClientState :=
  if c.pending_ack ∧ now - c.last_sent_time > c.timeout then
    { c with running := false }
  else c

/-- The epilogue of `UDPClient.run` (Client.py lines 135-141): GOODBYE is
sent only when `self.running` is still true; then `running` is cleared. -/
def ClientState.run_exit (c : ClientState) (now : ℚ) (nowMs : Nat) :
    ClientState × Option (List Nat) :=
  if c.running then
    let r := c.send_message CMD_GOODBYE [] now nowMs
    ({ r.1 with running := false }, some r.2)
  else ({ c with running := false }, none)

/-- One received datagram in `UDPClient.listen_server` (Client.py lines
65-95): parse (drop on failure); then clear `pending_ack`, merge the
clock, and only then run the FSM cases on command and state. -/
def ClientState.listen_step (c : ClientState) (data : List Nat) :
    ClientState :=
  match client_parse c.session_id data with
  | none => c
  | some ((command, _, logical_clock, _), _) =>
    let c1 := { c with pending_ack := false }
    let c2 := { c1 with
      logical_clock := update_clock c1.logical_clock (some logical_clock) }
    if command = CMD_HELLO ∧ c2.state = "WAIT_HELLO" then
      { c2 with state := "READY", seq_num := c2.seq_num + 1 }
    else if command = CMD_ALIVE ∧ c2.state = "WAIT_ALIVE" then
      { c2 with state := "READY", seq_num := c2.seq_num + 1 }
    else if command = CMD_GOODBYE then
      { c2 with running := false }
    else c2

/-- C7. Ack-timeout abort: in `WAIT_HELLO` or `WAIT_ALIVE`, once more
than `timeout` seconds (default 5) have elapsed since the last send with
`pending_ack` still set, the watchdog clears `running` — the client's
terminal (TERMINATED) condition — and the exit path then sends *no*
GOODBYE, because `run`'s epilogue guards the GOODBYE send with
`if self.running`.  By contrast a voluntary quit, reaching the epilogue
with `running` still true, does send a GOODBYE. -/
theorem ack_timeout_aborts (c : ClientState) (now now2 : ℚ) (nowMs : Nat)
    (hstate : c.state = "WAIT_HELLO" ∨ c.state = "WAIT_ALIVE")
    (hpend : c.pending_ack = true)
    (helap : now - c.last_sent_time > c.timeout) :
    (c.check_timeout now).running = false ∧
    ((c.check_timeout now).run_exit now2 nowMs).2 = none ∧
    (c.running = true → (c.run_exit now2 nowMs).2 ≠ none) := by
  have habort : c.check_timeout now = { c with running := false } := by
    rw [ClientState.check_timeout, if_pos ⟨hpend, helap⟩]
  refine ⟨by rw [habort], ?_, ?_⟩
  · rw [habort, ClientState.run_exit]
    simp
  · intro hrun
    rw [ClientState.run_exit, if_pos hrun]
    simp

/-- Concrete instance of the abort law: `WAIT_HELLO`, sent at 0 s,
watchdog wakes at 6 s, timeout 5 s. -/
theorem ack_timeout_aborts_witness :
    ((⟨7, 0, 0, "WAIT_HELLO", true, 5, 0, true⟩ : ClientState).check_timeout
        6).running = false ∧
    (((⟨7, 0, 0, "WAIT_HELLO", true, 5, 0, true⟩ : ClientState).check_timeout
        6).run_exit 6 0).2 = none ∧
    ((⟨7, 0, 0, "WAIT_HELLO", true, 5, 0, true⟩ : ClientState).running = true →
      ((⟨7, 0, 0, "WAIT_HELLO", true, 5, 0, true⟩ : ClientState).run_exit
        6 0).2 ≠ none) :=
  ack_timeout_aborts ⟨7, 0, 0, "WAIT_HELLO", true, 5, 0, true⟩ 6 6 0
    (Or.inl rfl) rfl (by norm_num)

/-- C10. Any successfully parsed datagram — correct magic, version and
the client's own session id — clears `pending_ack` before the FSM cases
run: whatever the command (HELLO, ALIVE, GOODBYE, or anything else) and
whatever the client's state, after `listen_step` the watchdog is
disarmed. -/
theorem listen_clears_pending_ack (c : ClientState) (data : List Nat)
    (h : (client_parse c.session_id data).isSome = true) :
    (c.listen_step data).pending_ack = false := by
  rw [ClientState.listen_step]
  split
  · rename_i heq
    rw [heq] at h
    simp at h
  · dsimp only
    split_ifs <;> rfl

/-- Concrete instance of the disarm law: client in `READY` (not waiting
for anything) receiving a GOODBYE still ends with `pending_ack` clear. -/
theorem listen_clears_pending_ack_witness :
    ((⟨5, 1, 0, "READY", true, 5, 0, true⟩ : ClientState).listen_step
      (packHeader CMD_GOODBYE 0 5 0 0)).pending_ack = false :=
  listen_clears_pending_ack ⟨5, 1, 0, "READY", true, 5, 0, true⟩
    (packHeader CMD_GOODBYE 0 5 0 0) (by decide)
